import Mathlib

/-!
Verification development for the OmniTalk gesture-recognition backend.

The backend code (backend/gesture_classifier.py, backend/hand_detector.py,
backend/processor.py) is embedded shallowly:

* Python floats are modelled as real numbers in the classifier geometry
  (distances use square roots, joint angles use the inverse cosine), and as
  rational numbers in the temporal-smoothing layer of processor.py, which
  only ever compares and subtracts timestamps.
* Python list indexing lm[i] is modelled with a defaulted getter; every
  access in the classifier is guarded by a length check of 21, under which
  the default is never read.
* The sequential if/return chains of the rule-based classifier are embedded
  as nested if-then-else terms in the source order, one branch per return
  statement; a block whose body holds further conditions before its return
  is flattened into the conjunction of its conditions, which has the same
  fall-through semantics.
* The mutable per-client buffer dictionary of processor.py is modelled as a
  function from client identifiers to event lists, updated functionally.
* The trained scikit-learn model is opaque to this development; it is
  modelled as an optional abstract function from detections to a predicted
  label together with its maximal class probability.
-/

namespace OmniTalk

set_option maxHeartbeats 1000000
set_option linter.unusedVariables false

/-! ## Data model (backend/hand_detector.py) -/

/-- A single MediaPipe hand landmark: normalized coordinates plus
visibility, as in the HandLandmark dataclass of hand_detector.py. -/
structure HandLandmark where
  x : ℝ
  y : ℝ
  z : ℝ
  visibility : ℝ

/-- A detected hand, as in the HandDetection dataclass of hand_detector.py. -/
structure HandDetection where
  landmarks : List HandLandmark
  handedness : String
  score : ℝ

/-- Classification outcome, as in the GestureResult dataclass of
gesture_classifier.py. -/
structure GestureResult where
  gesture : String
  confidence : ℝ
  method : String

/-! ## MediaPipe hand landmark indices (gesture_classifier.py, lines 21-27) -/

def WRIST : ℕ := 0
def THUMB_CMC : ℕ := 1
def THUMB_MCP : ℕ := 2
def THUMB_IP : ℕ := 3
def THUMB_TIP : ℕ := 4
def INDEX_MCP : ℕ := 5
def INDEX_PIP : ℕ := 6
def INDEX_DIP : ℕ := 7
def INDEX_TIP : ℕ := 8
def MIDDLE_MCP : ℕ := 9
def MIDDLE_PIP : ℕ := 10
def MIDDLE_DIP : ℕ := 11
def MIDDLE_TIP : ℕ := 12
def RING_MCP : ℕ := 13
def RING_PIP : ℕ := 14
def RING_DIP : ℕ := 15
def RING_TIP : ℕ := 16
def PINKY_MCP : ℕ := 17
def PINKY_PIP : ℕ := 18
def PINKY_DIP : ℕ := 19
def PINKY_TIP : ℕ := 20

/-- Python list access lm[i]. Every use below is guarded by a length check
of at least 21, so for valid inputs the default landmark is never read. -/
def nth (lm : List HandLandmark) (i : ℕ) : HandLandmark :=
  lm.getD i ⟨0, 0, 0, 0⟩

/-! ## Geometry helpers (gesture_classifier.py, lines 39-52) -/

/-- Euclidean 3D distance between two landmarks. -/
noncomputable def _distance (a b : HandLandmark) : ℝ :=
  Real.sqrt ((a.x - b.x) ^ 2 + (a.y - b.y) ^ 2 + (a.z - b.z) ^ 2)

/-- Euclidean 2D distance between two landmarks (x and y only). -/
noncomputable def _distance_2d (a b : HandLandmark) : ℝ :=
  Real.sqrt ((a.x - b.x) ^ 2 + (a.y - b.y) ^ 2)

/-- Angle at point b formed by the segments ba and bc, in degrees.
The cosine is the dot product over the product of norms (with the 1e-8
regularizer of the source), clipped to the interval from -1 to 1 before
the inverse cosine, and converted to degrees by multiplying with 180 over
pi, following numpy's degrees. -/
noncomputable def _angle (a b c : HandLandmark) : ℝ :=
  Real.arccos (min 1 (max (-1)
    (((a.x - b.x) * (c.x - b.x) + (a.y - b.y) * (c.y - b.y) + (a.z - b.z) * (c.z - b.z)) /
      (Real.sqrt ((a.x - b.x) ^ 2 + (a.y - b.y) ^ 2 + (a.z - b.z) ^ 2) *
        Real.sqrt ((c.x - b.x) ^ 2 + (c.y - b.y) ^ 2 + (c.z - b.z) ^ 2) + 1e-8)))) *
    (180 / Real.pi)

/-! ## FingerState (gesture_classifier.py, lines 55-151)

The Python class holds the landmark list and handedness; handedness is
stored but unused by the predicates, so they are functions of the
landmark list alone. -/

/-- Thumb is extended if its tip is farther from the index MCP than the
thumb IP is, and farther from the wrist than the thumb MCP is. -/
noncomputable def is_thumb_extended (lm : List HandLandmark) : Prop :=
  _distance (nth lm THUMB_TIP) (nth lm INDEX_MCP) >
    _distance (nth lm THUMB_IP) (nth lm INDEX_MCP) ∧
  _distance (nth lm THUMB_TIP) (nth lm WRIST) >
    _distance (nth lm THUMB_MCP) (nth lm WRIST)

/-- A finger is extended if its tip is above the PIP joint (smaller y) and
the PIP angle is wide (the DIP index is the tip index minus one). -/
noncomputable def is_finger_extended (lm : List HandLandmark)
    (tip_idx pip_idx mcp_idx : ℕ) : Prop :=
  (nth lm tip_idx).y < (nth lm pip_idx).y ∧
  _angle (nth lm mcp_idx) (nth lm pip_idx) (nth lm (tip_idx - 1)) > 140

/-- A finger is curled if its PIP angle is tight. -/
noncomputable def is_finger_curled (lm : List HandLandmark)
    (tip_idx pip_idx mcp_idx : ℕ) : Prop :=
  _angle (nth lm mcp_idx) (nth lm pip_idx) (nth lm (tip_idx - 1)) < 100

/-- The PIP joint angle of a finger. -/
noncomputable def pip_angle (lm : List HandLandmark)
    (tip_idx pip_idx mcp_idx : ℕ) : ℝ :=
  _angle (nth lm mcp_idx) (nth lm pip_idx) (nth lm (tip_idx - 1))

noncomputable def thumb_extended (lm : List HandLandmark) : Prop :=
  is_thumb_extended lm

noncomputable def index_extended (lm : List HandLandmark) : Prop :=
  is_finger_extended lm INDEX_TIP INDEX_PIP INDEX_MCP

noncomputable def middle_extended (lm : List HandLandmark) : Prop :=
  is_finger_extended lm MIDDLE_TIP MIDDLE_PIP MIDDLE_MCP

noncomputable def ring_extended (lm : List HandLandmark) : Prop :=
  is_finger_extended lm RING_TIP RING_PIP RING_MCP

noncomputable def pinky_extended (lm : List HandLandmark) : Prop :=
  is_finger_extended lm PINKY_TIP PINKY_PIP PINKY_MCP

noncomputable def index_curled (lm : List HandLandmark) : Prop :=
  is_finger_curled lm INDEX_TIP INDEX_PIP INDEX_MCP

noncomputable def middle_curled (lm : List HandLandmark) : Prop :=
  is_finger_curled lm MIDDLE_TIP MIDDLE_PIP MIDDLE_MCP

noncomputable def ring_curled (lm : List HandLandmark) : Prop :=
  is_finger_curled lm RING_TIP RING_PIP RING_MCP

noncomputable def pinky_curled (lm : List HandLandmark) : Prop :=
  is_finger_curled lm PINKY_TIP PINKY_PIP PINKY_MCP

/-! ## Shared helper quantities of the fingerspelling classifier
(gesture_classifier.py, lines 207-213) -/

noncomputable def thumb_index_dist (lm : List HandLandmark) : ℝ :=
  _distance (nth lm THUMB_TIP) (nth lm INDEX_TIP)

noncomputable def thumb_middle_dist (lm : List HandLandmark) : ℝ :=
  _distance (nth lm THUMB_TIP) (nth lm MIDDLE_TIP)

/-- Sideways rather than upward pointing: the index tip's y displacement
from its MCP is smaller than its x displacement. -/
noncomputable def index_horizontal (lm : List HandLandmark) : Prop :=
  |(nth lm INDEX_TIP).y - (nth lm INDEX_MCP).y| <
    |(nth lm INDEX_TIP).x - (nth lm INDEX_MCP).x|

/-! ## Fingerspelling rule guards (gesture_classifier.py, lines 215-379)

Each Python block "if outer: ... if inner: return result" is flattened to
the conjunction of its conditions in source order; this preserves the
fall-through behaviour because the block returns exactly when all its
conditions hold and otherwise control reaches the next block. -/

noncomputable def guard_asl_a (lm : List HandLandmark) : Prop :=
  ¬ index_extended lm ∧ ¬ middle_extended lm ∧ ¬ ring_extended lm ∧ ¬ pinky_extended lm ∧
  thumb_extended lm ∧ (nth lm THUMB_TIP).y > (nth lm WRIST).y ∧
  _distance (nth lm THUMB_TIP) (nth lm INDEX_PIP) < 0.08

noncomputable def guard_asl_b (lm : List HandLandmark) : Prop :=
  ¬ thumb_extended lm ∧ index_extended lm ∧ middle_extended lm ∧ ring_extended lm ∧
  pinky_extended lm ∧
  (_distance_2d (nth lm INDEX_TIP) (nth lm MIDDLE_TIP) +
    _distance_2d (nth lm MIDDLE_TIP) (nth lm RING_TIP) +
    _distance_2d (nth lm RING_TIP) (nth lm PINKY_TIP)) / 3 < 0.045

noncomputable def guard_asl_c (lm : List HandLandmark) : Prop :=
  thumb_extended lm ∧ ¬ index_curled lm ∧ ¬ pinky_curled lm ∧
  100 < pip_angle lm INDEX_TIP INDEX_PIP INDEX_MCP ∧
  pip_angle lm INDEX_TIP INDEX_PIP INDEX_MCP < 155 ∧
  100 < pip_angle lm MIDDLE_TIP MIDDLE_PIP MIDDLE_MCP ∧
  pip_angle lm MIDDLE_TIP MIDDLE_PIP MIDDLE_MCP < 155 ∧
  0.06 < thumb_index_dist lm ∧ thumb_index_dist lm < 0.18

noncomputable def guard_asl_d (lm : List HandLandmark) : Prop :=
  index_extended lm ∧ ¬ middle_extended lm ∧ ¬ ring_extended lm ∧ ¬ pinky_extended lm ∧
  thumb_middle_dist lm < 0.06

noncomputable def guard_asl_e (lm : List HandLandmark) : Prop :=
  ¬ index_extended lm ∧ ¬ middle_extended lm ∧ ¬ ring_extended lm ∧ ¬ pinky_extended lm ∧
  ¬ thumb_extended lm ∧
  _distance (nth lm THUMB_TIP) (nth lm INDEX_TIP) < 0.06 ∧
  _distance (nth lm THUMB_TIP) (nth lm MIDDLE_TIP) < 0.06

noncomputable def guard_asl_f (lm : List HandLandmark) : Prop :=
  middle_extended lm ∧ ring_extended lm ∧ pinky_extended lm ∧ thumb_index_dist lm < 0.045

noncomputable def guard_asl_g (lm : List HandLandmark) : Prop :=
  thumb_extended lm ∧ index_extended lm ∧ ¬ middle_extended lm ∧ ¬ ring_extended lm ∧
  ¬ pinky_extended lm ∧ index_horizontal lm

noncomputable def guard_asl_h (lm : List HandLandmark) : Prop :=
  ¬ thumb_extended lm ∧ index_extended lm ∧ middle_extended lm ∧ ¬ ring_extended lm ∧
  ¬ pinky_extended lm ∧ index_horizontal lm

noncomputable def guard_asl_i (lm : List HandLandmark) : Prop :=
  ¬ thumb_extended lm ∧ ¬ index_extended lm ∧ ¬ middle_extended lm ∧ ¬ ring_extended lm ∧
  pinky_extended lm

noncomputable def guard_asl_k (lm : List HandLandmark) : Prop :=
  index_extended lm ∧ middle_extended lm ∧ ¬ ring_extended lm ∧ ¬ pinky_extended lm ∧
  _distance (nth lm INDEX_TIP) (nth lm MIDDLE_TIP) > 0.05 ∧ thumb_extended lm ∧
  ((min (nth lm INDEX_MCP).x (nth lm MIDDLE_MCP).x < (nth lm THUMB_TIP).x ∧
      (nth lm THUMB_TIP).x < max (nth lm INDEX_MCP).x (nth lm MIDDLE_MCP).x) ∨
    _distance (nth lm THUMB_TIP) (nth lm INDEX_PIP) < 0.05)

noncomputable def guard_asl_l (lm : List HandLandmark) : Prop :=
  thumb_extended lm ∧ index_extended lm ∧ ¬ middle_extended lm ∧ ¬ ring_extended lm ∧
  ¬ pinky_extended lm ∧
  |(nth lm THUMB_TIP).x - (nth lm THUMB_MCP).x| > |(nth lm THUMB_TIP).y - (nth lm THUMB_MCP).y| ∧
  |(nth lm INDEX_TIP).y - (nth lm INDEX_MCP).y| > |(nth lm INDEX_TIP).x - (nth lm INDEX_MCP).x|

noncomputable def guard_asl_m (lm : List HandLandmark) : Prop :=
  ¬ index_extended lm ∧ ¬ middle_extended lm ∧ ¬ ring_extended lm ∧ ¬ pinky_extended lm ∧
  ¬ thumb_extended lm ∧
  (nth lm THUMB_TIP).y > (nth lm INDEX_PIP).y ∧
  _distance (nth lm THUMB_TIP) (nth lm RING_PIP) < 0.08

noncomputable def guard_asl_n (lm : List HandLandmark) : Prop :=
  ¬ index_extended lm ∧ ¬ middle_extended lm ∧ ¬ ring_extended lm ∧ ¬ pinky_extended lm ∧
  ¬ thumb_extended lm ∧
  (nth lm THUMB_TIP).y > (nth lm INDEX_PIP).y ∧
  _distance (nth lm THUMB_TIP) (nth lm MIDDLE_PIP) < 0.06 ∧
  _distance (nth lm THUMB_TIP) (nth lm RING_PIP) > 0.06

noncomputable def guard_asl_o (lm : List HandLandmark) : Prop :=
  ¬ index_extended lm ∧ ¬ middle_extended lm ∧ ¬ ring_extended lm ∧ ¬ pinky_extended lm ∧
  thumb_index_dist lm < 0.05 ∧ thumb_middle_dist lm < 0.05 ∧ thumb_extended lm

noncomputable def guard_asl_r (lm : List HandLandmark) (handedness : String) : Prop :=
  index_extended lm ∧ middle_extended lm ∧ ¬ ring_extended lm ∧ ¬ pinky_extended lm ∧
  ((if handedness = "Right" then (nth lm MIDDLE_TIP).x > (nth lm INDEX_TIP).x
      else (nth lm MIDDLE_TIP).x < (nth lm INDEX_TIP).x) ∨
    _distance_2d (nth lm INDEX_TIP) (nth lm MIDDLE_TIP) < 0.035)

noncomputable def guard_asl_s (lm : List HandLandmark) : Prop :=
  ¬ index_extended lm ∧ ¬ middle_extended lm ∧ ¬ ring_extended lm ∧ ¬ pinky_extended lm ∧
  ¬ thumb_extended lm ∧ (nth lm THUMB_TIP).z < (nth lm INDEX_PIP).z

noncomputable def guard_asl_t (lm : List HandLandmark) : Prop :=
  ¬ index_extended lm ∧ ¬ middle_extended lm ∧ ¬ ring_extended lm ∧ ¬ pinky_extended lm ∧
  _distance (nth lm THUMB_TIP) (nth lm INDEX_PIP) < 0.04 ∧
  _distance (nth lm THUMB_TIP) (nth lm MIDDLE_PIP) < 0.06

noncomputable def guard_asl_u (lm : List HandLandmark) : Prop :=
  ¬ thumb_extended lm ∧ index_extended lm ∧ middle_extended lm ∧ ¬ ring_extended lm ∧
  ¬ pinky_extended lm ∧
  _distance_2d (nth lm INDEX_TIP) (nth lm MIDDLE_TIP) < 0.035 ∧ ¬ index_horizontal lm

noncomputable def guard_asl_v (lm : List HandLandmark) : Prop :=
  ¬ thumb_extended lm ∧ index_extended lm ∧ middle_extended lm ∧ ¬ ring_extended lm ∧
  ¬ pinky_extended lm ∧
  _distance (nth lm INDEX_TIP) (nth lm MIDDLE_TIP) > 0.05 ∧ ¬ index_horizontal lm

noncomputable def guard_asl_w (lm : List HandLandmark) : Prop :=
  ¬ thumb_extended lm ∧ index_extended lm ∧ middle_extended lm ∧ ring_extended lm ∧
  ¬ pinky_extended lm ∧
  _distance_2d (nth lm INDEX_TIP) (nth lm MIDDLE_TIP) > 0.03 ∧
  _distance_2d (nth lm MIDDLE_TIP) (nth lm RING_TIP) > 0.03

noncomputable def guard_asl_x (lm : List HandLandmark) : Prop :=
  ¬ thumb_extended lm ∧ ¬ middle_extended lm ∧ ¬ ring_extended lm ∧ ¬ pinky_extended lm ∧
  80 < pip_angle lm INDEX_TIP INDEX_PIP INDEX_MCP ∧
  pip_angle lm INDEX_TIP INDEX_PIP INDEX_MCP < 140 ∧
  (nth lm INDEX_TIP).y < (nth lm INDEX_MCP).y

noncomputable def guard_asl_y (lm : List HandLandmark) : Prop :=
  thumb_extended lm ∧ ¬ index_extended lm ∧ ¬ middle_extended lm ∧ ¬ ring_extended lm ∧
  pinky_extended lm

/-! ## Common-gesture rule guards (gesture_classifier.py, lines 382-447) -/

noncomputable def guard_fist (lm : List HandLandmark) : Prop :=
  ¬ (thumb_extended lm ∨ index_extended lm ∨ middle_extended lm ∨ ring_extended lm ∨
    pinky_extended lm)

noncomputable def guard_thumbs (lm : List HandLandmark) : Prop :=
  thumb_extended lm ∧ ¬ index_extended lm ∧ ¬ middle_extended lm ∧ ¬ ring_extended lm ∧
  ¬ pinky_extended lm

noncomputable def guard_point (lm : List HandLandmark) : Prop :=
  ¬ thumb_extended lm ∧ index_extended lm ∧ ¬ middle_extended lm ∧ ¬ ring_extended lm ∧
  ¬ pinky_extended lm

noncomputable def guard_peace (lm : List HandLandmark) : Prop :=
  ¬ thumb_extended lm ∧ index_extended lm ∧ middle_extended lm ∧ ¬ ring_extended lm ∧
  ¬ pinky_extended lm ∧
  _distance (nth lm INDEX_TIP) (nth lm MIDDLE_TIP) > 0.05

noncomputable def guard_open_palm (lm : List HandLandmark) : Prop :=
  thumb_extended lm ∧ index_extended lm ∧ middle_extended lm ∧ ring_extended lm ∧
  pinky_extended lm

noncomputable def guard_i_love_you (lm : List HandLandmark) : Prop :=
  thumb_extended lm ∧ index_extended lm ∧ ¬ middle_extended lm ∧ ¬ ring_extended lm ∧
  pinky_extended lm

noncomputable def guard_rock_on (lm : List HandLandmark) : Prop :=
  ¬ thumb_extended lm ∧ index_extended lm ∧ ¬ middle_extended lm ∧ ¬ ring_extended lm ∧
  pinky_extended lm

noncomputable def guard_ok_sign (lm : List HandLandmark) : Prop :=
  middle_extended lm ∧ ring_extended lm ∧ pinky_extended lm ∧
  _distance (nth lm THUMB_TIP) (nth lm INDEX_TIP) < 0.05

noncomputable def guard_call_me (lm : List HandLandmark) : Prop :=
  thumb_extended lm ∧ ¬ index_extended lm ∧ ¬ middle_extended lm ∧ ¬ ring_extended lm ∧
  pinky_extended lm

noncomputable def guard_one (lm : List HandLandmark) : Prop :=
  thumb_extended lm ∧ index_extended lm ∧ ¬ middle_extended lm ∧ ¬ ring_extended lm ∧
  ¬ pinky_extended lm

noncomputable def guard_two (lm : List HandLandmark) : Prop :=
  ¬ thumb_extended lm ∧ index_extended lm ∧ middle_extended lm ∧ ¬ ring_extended lm ∧
  ¬ pinky_extended lm

noncomputable def guard_three (lm : List HandLandmark) : Prop :=
  ¬ thumb_extended lm ∧ index_extended lm ∧ middle_extended lm ∧ ring_extended lm ∧
  ¬ pinky_extended lm

noncomputable def guard_four (lm : List HandLandmark) : Prop :=
  ¬ thumb_extended lm ∧ index_extended lm ∧ middle_extended lm ∧ ring_extended lm ∧
  pinky_extended lm

/-! ## The rule-based classifier (gesture_classifier.py, lines 158-447) -/

/-- The unknown fallback result of the common-gesture classifier. -/
def unknown_result : GestureResult := ⟨"unknown", 0.3, "rule"⟩

/-- The thumbs rule returns up or down depending on whether the thumb tip
is above the wrist. -/
noncomputable def thumbs_result (lm : List HandLandmark) : GestureResult :=
  if (nth lm THUMB_TIP).y < (nth lm WRIST).y then ⟨"thumbs_up", 0.92, "rule"⟩
  else ⟨"thumbs_down", 0.90, "rule"⟩

open Classical in
/-- Classify ASL fingerspelling letters, one branch per return statement of
the source, in source order. -/
noncomputable def _classify_fingerspelling (lm : List HandLandmark) (handedness : String) :
    Option GestureResult :=
  if guard_asl_a lm then some ⟨"asl_a", 0.82, "rule"⟩
  else if guard_asl_b lm then some ⟨"asl_b", 0.85, "rule"⟩
  else if guard_asl_c lm then some ⟨"asl_c", 0.78, "rule"⟩
  else if guard_asl_d lm then some ⟨"asl_d", 0.83, "rule"⟩
  else if guard_asl_e lm then some ⟨"asl_e", 0.75, "rule"⟩
  else if guard_asl_f lm then some ⟨"asl_f", 0.85, "rule"⟩
  else if guard_asl_g lm then some ⟨"asl_g", 0.80, "rule"⟩
  else if guard_asl_h lm then some ⟨"asl_h", 0.80, "rule"⟩
  else if guard_asl_i lm then some ⟨"asl_i", 0.88, "rule"⟩
  else if guard_asl_k lm then some ⟨"asl_k", 0.78, "rule"⟩
  else if guard_asl_l lm then some ⟨"asl_l", 0.85, "rule"⟩
  else if guard_asl_m lm then some ⟨"asl_m", 0.70, "rule"⟩
  else if guard_asl_n lm then some ⟨"asl_n", 0.68, "rule"⟩
  else if guard_asl_o lm then some ⟨"asl_o", 0.80, "rule"⟩
  else if guard_asl_r lm handedness then some ⟨"asl_r", 0.75, "rule"⟩
  else if guard_asl_s lm then some ⟨"asl_s", 0.72, "rule"⟩
  else if guard_asl_t lm then some ⟨"asl_t", 0.70, "rule"⟩
  else if guard_asl_u lm then some ⟨"asl_u", 0.83, "rule"⟩
  else if guard_asl_v lm then some ⟨"asl_v", 0.85, "rule"⟩
  else if guard_asl_w lm then some ⟨"asl_w", 0.83, "rule"⟩
  else if guard_asl_x lm then some ⟨"asl_x", 0.75, "rule"⟩
  else if guard_asl_y lm then some ⟨"asl_y", 0.85, "rule"⟩
  else none

open Classical in
/-- Classify common ASL gestures, one branch per return statement of the
source, in source order, ending in the unknown fallback. The handedness
parameter of the source is unused by its body. -/
noncomputable def _classify_common_gestures (lm : List HandLandmark) (handedness : String) :
    Option GestureResult :=
  if guard_fist lm then some ⟨"fist", 0.90, "rule"⟩
  else if guard_thumbs lm then some (thumbs_result lm)
  else if guard_point lm then some ⟨"point", 0.88, "rule"⟩
  else if guard_peace lm then some ⟨"peace", 0.90, "rule"⟩
  else if guard_open_palm lm then some ⟨"open_palm", 0.92, "rule"⟩
  else if guard_i_love_you lm then some ⟨"i_love_you", 0.88, "rule"⟩
  else if guard_rock_on lm then some ⟨"rock_on", 0.85, "rule"⟩
  else if guard_ok_sign lm then some ⟨"ok_sign", 0.88, "rule"⟩
  else if guard_call_me lm then some ⟨"call_me", 0.85, "rule"⟩
  else if guard_one lm then some ⟨"one", 0.82, "rule"⟩
  else if guard_two lm then some ⟨"two", 0.80, "rule"⟩
  else if guard_three lm then some ⟨"three", 0.85, "rule"⟩
  else if guard_four lm then some ⟨"four", 0.85, "rule"⟩
  else some unknown_result

/-- Rule-based classification: reject detections with fewer than 21
landmarks, try fingerspelling first, then fall back to common gestures. -/
noncomputable def classify_rule_based (detection : HandDetection) : Option GestureResult :=
  if detection.landmarks.length < 21 then none
  else
    match _classify_fingerspelling detection.landmarks detection.handedness with
    | some letter => some letter
    | none => _classify_common_gestures detection.landmarks detection.handedness

/-! ## The ordered rule tables

The specification describes the classifier as two ordered sub-tables in
which the first rule whose predicate is satisfied wins. The following
definitions state that reading; the theorems for the ordering claims
relate them to the sequential classifier above. -/

/-- A table entry: given the landmarks and handedness, either fire with a
result or decline. -/
abbrev Rule := List HandLandmark → String → Option GestureResult

section RuleTables

open Classical

noncomputable def fs_rule_a : Rule := fun lm _ =>
  if guard_asl_a lm then some ⟨"asl_a", 0.82, "rule"⟩ else none

noncomputable def fs_rule_b : Rule := fun lm _ =>
  if guard_asl_b lm then some ⟨"asl_b", 0.85, "rule"⟩ else none

noncomputable def fs_rule_c : Rule := fun lm _ =>
  if guard_asl_c lm then some ⟨"asl_c", 0.78, "rule"⟩ else none

noncomputable def fs_rule_d : Rule := fun lm _ =>
  if guard_asl_d lm then some ⟨"asl_d", 0.83, "rule"⟩ else none

noncomputable def fs_rule_e : Rule := fun lm _ =>
  if guard_asl_e lm then some ⟨"asl_e", 0.75, "rule"⟩ else none

noncomputable def fs_rule_f : Rule := fun lm _ =>
  if guard_asl_f lm then some ⟨"asl_f", 0.85, "rule"⟩ else none

noncomputable def fs_rule_g : Rule := fun lm _ =>
  if guard_asl_g lm then some ⟨"asl_g", 0.80, "rule"⟩ else none

noncomputable def fs_rule_h : Rule := fun lm _ =>
  if guard_asl_h lm then some ⟨"asl_h", 0.80, "rule"⟩ else none

noncomputable def fs_rule_i : Rule := fun lm _ =>
  if guard_asl_i lm then some ⟨"asl_i", 0.88, "rule"⟩ else none

noncomputable def fs_rule_k : Rule := fun lm _ =>
  if guard_asl_k lm then some ⟨"asl_k", 0.78, "rule"⟩ else none

noncomputable def fs_rule_l : Rule := fun lm _ =>
  if guard_asl_l lm then some ⟨"asl_l", 0.85, "rule"⟩ else none

noncomputable def fs_rule_m : Rule := fun lm _ =>
  if guard_asl_m lm then some ⟨"asl_m", 0.70, "rule"⟩ else none

noncomputable def fs_rule_n : Rule := fun lm _ =>
  if guard_asl_n lm then some ⟨"asl_n", 0.68, "rule"⟩ else none

noncomputable def fs_rule_o : Rule := fun lm _ =>
  if guard_asl_o lm then some ⟨"asl_o", 0.80, "rule"⟩ else none

noncomputable def fs_rule_r : Rule := fun lm hd =>
  if guard_asl_r lm hd then some ⟨"asl_r", 0.75, "rule"⟩ else none

noncomputable def fs_rule_s : Rule := fun lm _ =>
  if guard_asl_s lm then some ⟨"asl_s", 0.72, "rule"⟩ else none

noncomputable def fs_rule_t : Rule := fun lm _ =>
  if guard_asl_t lm then some ⟨"asl_t", 0.70, "rule"⟩ else none

noncomputable def fs_rule_u : Rule := fun lm _ =>
  if guard_asl_u lm then some ⟨"asl_u", 0.83, "rule"⟩ else none

noncomputable def fs_rule_v : Rule := fun lm _ =>
  if guard_asl_v lm then some ⟨"asl_v", 0.85, "rule"⟩ else none

noncomputable def fs_rule_w : Rule := fun lm _ =>
  if guard_asl_w lm then some ⟨"asl_w", 0.83, "rule"⟩ else none

noncomputable def fs_rule_x : Rule := fun lm _ =>
  if guard_asl_x lm then some ⟨"asl_x", 0.75, "rule"⟩ else none

noncomputable def fs_rule_y : Rule := fun lm _ =>
  if guard_asl_y lm then some ⟨"asl_y", 0.85, "rule"⟩ else none

noncomputable def cg_rule_fist : Rule := fun lm _ =>
  if guard_fist lm then some ⟨"fist", 0.90, "rule"⟩ else none

noncomputable def cg_rule_thumbs : Rule := fun lm _ =>
  if guard_thumbs lm then some (thumbs_result lm) else none

noncomputable def cg_rule_point : Rule := fun lm _ =>
  if guard_point lm then some ⟨"point", 0.88, "rule"⟩ else none

noncomputable def cg_rule_peace : Rule := fun lm _ =>
  if guard_peace lm then some ⟨"peace", 0.90, "rule"⟩ else none

noncomputable def cg_rule_open_palm : Rule := fun lm _ =>
  if guard_open_palm lm then some ⟨"open_palm", 0.92, "rule"⟩ else none

noncomputable def cg_rule_i_love_you : Rule := fun lm _ =>
  if guard_i_love_you lm then some ⟨"i_love_you", 0.88, "rule"⟩ else none

noncomputable def cg_rule_rock_on : Rule := fun lm _ =>
  if guard_rock_on lm then some ⟨"rock_on", 0.85, "rule"⟩ else none

noncomputable def cg_rule_ok_sign : Rule := fun lm _ =>
  if guard_ok_sign lm then some ⟨"ok_sign", 0.88, "rule"⟩ else none

noncomputable def cg_rule_call_me : Rule := fun lm _ =>
  if guard_call_me lm then some ⟨"call_me", 0.85, "rule"⟩ else none

noncomputable def cg_rule_one : Rule := fun lm _ =>
  if guard_one lm then some ⟨"one", 0.82, "rule"⟩ else none

noncomputable def cg_rule_two : Rule := fun lm _ =>
  if guard_two lm then some ⟨"two", 0.80, "rule"⟩ else none

noncomputable def cg_rule_three : Rule := fun lm _ =>
  if guard_three lm then some ⟨"three", 0.85, "rule"⟩ else none

noncomputable def cg_rule_four : Rule := fun lm _ =>
  if guard_four lm then some ⟨"four", 0.85, "rule"⟩ else none

end RuleTables

/-- The fingerspelling sub-table, in the listed order of the source. -/
noncomputable def fingerspellingRules : List Rule :=
  [fs_rule_a, fs_rule_b, fs_rule_c, fs_rule_d, fs_rule_e, fs_rule_f, fs_rule_g,
    fs_rule_h, fs_rule_i, fs_rule_k, fs_rule_l, fs_rule_m, fs_rule_n, fs_rule_o,
    fs_rule_r, fs_rule_s, fs_rule_t, fs_rule_u, fs_rule_v, fs_rule_w, fs_rule_x,
    fs_rule_y]

/-- The common-gesture sub-table, in the listed order of the source. -/
noncomputable def commonRules : List Rule :=
  [cg_rule_fist, cg_rule_thumbs, cg_rule_point, cg_rule_peace, cg_rule_open_palm,
    cg_rule_i_love_you, cg_rule_rock_on, cg_rule_ok_sign, cg_rule_call_me,
    cg_rule_one, cg_rule_two, cg_rule_three, cg_rule_four]

/-- First-match evaluation of an ordered rule table: return the result of
the first rule that fires; rules after the first match are not consulted. -/
def firstMatch (rules : List Rule) (lm : List HandLandmark) (hd : String) :
    Option GestureResult :=
  match rules with
  | [] => none
  | r :: rest => (r lm hd).orElse fun _ => firstMatch rest lm hd

lemma firstMatch_append (xs ys : List Rule) (lm : List HandLandmark) (hd : String) :
    firstMatch (xs ++ ys) lm hd =
      (firstMatch xs lm hd).orElse fun _ => firstMatch ys lm hd := by
  induction xs with
  | nil => simp [firstMatch, Option.orElse]
  | cons r rest ih =>
    simp only [List.cons_append, firstMatch]
    cases r lm hd <;> simp [ih, Option.orElse]

lemma guard_orElse (c : Prop) [Decidable c] (res : GestureResult)
    (alt : Option GestureResult) :
    ((if c then some res else none : Option GestureResult).orElse fun _ => alt) =
      if c then some res else alt := by
  split_ifs <;> rfl

lemma fingerspelling_eq_firstMatch (lm : List HandLandmark) (hd : String) :
    _classify_fingerspelling lm hd = firstMatch fingerspellingRules lm hd := by
  unfold _classify_fingerspelling fingerspellingRules
  simp only [firstMatch, fs_rule_a, fs_rule_b, fs_rule_c, fs_rule_d, fs_rule_e,
    fs_rule_f, fs_rule_g, fs_rule_h, fs_rule_i, fs_rule_k, fs_rule_l, fs_rule_m,
    fs_rule_n, fs_rule_o, fs_rule_r, fs_rule_s, fs_rule_t, fs_rule_u, fs_rule_v,
    fs_rule_w, fs_rule_x, fs_rule_y, guard_orElse]

lemma some_getD_ite (c : Prop) [Decidable c] (res u : GestureResult)
    (alt : Option GestureResult) :
    (some ((if c then some res else alt).getD u) : Option GestureResult) =
      if c then some res else some (alt.getD u) := by
  split_ifs <;> rfl

lemma common_eq_firstMatch (lm : List HandLandmark) (hd : String) :
    _classify_common_gestures lm hd =
      some ((firstMatch commonRules lm hd).getD unknown_result) := by
  unfold _classify_common_gestures commonRules
  simp only [firstMatch, cg_rule_fist, cg_rule_thumbs, cg_rule_point, cg_rule_peace,
    cg_rule_open_palm, cg_rule_i_love_you, cg_rule_rock_on, cg_rule_ok_sign,
    cg_rule_call_me, cg_rule_one, cg_rule_two, cg_rule_three, cg_rule_four,
    guard_orElse, some_getD_ite, Option.getD_none]

/-! ## Feature encoder (gesture_classifier.py, lines 512-547)

Convert 21 hand landmarks to the 78-entry feature vector: 63 wrist-relative
coordinates, 10 pairwise fingertip distances, 5 normalized PIP angles.
With fewer than 21 landmarks the all-zero vector is returned; the numpy
array is modelled as a list of reals. -/

noncomputable def landmarks_to_features (landmarks : List HandLandmark) : List ℝ :=
  if landmarks.length < 21 then List.replicate 78 0
  else
    (landmarks.map fun p =>
      [p.x - (nth landmarks WRIST).x, p.y - (nth landmarks WRIST).y,
        p.z - (nth landmarks WRIST).z]).flatten ++
    [_distance (nth landmarks THUMB_TIP) (nth landmarks INDEX_TIP),
      _distance (nth landmarks THUMB_TIP) (nth landmarks MIDDLE_TIP),
      _distance (nth landmarks THUMB_TIP) (nth landmarks RING_TIP),
      _distance (nth landmarks THUMB_TIP) (nth landmarks PINKY_TIP),
      _distance (nth landmarks INDEX_TIP) (nth landmarks MIDDLE_TIP),
      _distance (nth landmarks INDEX_TIP) (nth landmarks RING_TIP),
      _distance (nth landmarks INDEX_TIP) (nth landmarks PINKY_TIP),
      _distance (nth landmarks MIDDLE_TIP) (nth landmarks RING_TIP),
      _distance (nth landmarks MIDDLE_TIP) (nth landmarks PINKY_TIP),
      _distance (nth landmarks RING_TIP) (nth landmarks PINKY_TIP)] ++
    [_angle (nth landmarks THUMB_MCP) (nth landmarks THUMB_IP) (nth landmarks THUMB_TIP) / 180,
      _angle (nth landmarks INDEX_MCP) (nth landmarks INDEX_PIP) (nth landmarks INDEX_DIP) / 180,
      _angle (nth landmarks MIDDLE_MCP) (nth landmarks MIDDLE_PIP) (nth landmarks MIDDLE_DIP) / 180,
      _angle (nth landmarks RING_MCP) (nth landmarks RING_PIP) (nth landmarks RING_DIP) / 180,
      _angle (nth landmarks PINKY_MCP) (nth landmarks PINKY_PIP) (nth landmarks PINKY_DIP) / 180]

/-! ## Learned classifier (gesture_classifier.py, lines 550-626)

The scikit-learn MLP and label encoder are opaque artifacts; a loaded
model is modelled abstractly as a function from the encoded feature
vector to the argmax label together with its maximal class probability.
An instance whose load failed or never ran has no model. -/

structure MLGestureClassifier where
  model : Option (List ℝ → String × ℝ)

/-- Classify a gesture using the ML model: encode features, take the
argmax label and its probability; no result when no model is loaded. -/
noncomputable def MLGestureClassifier.predict (c : MLGestureClassifier)
    (detection : HandDetection) : Option GestureResult :=
  match c.model with
  | none => none
  | some m =>
    some ⟨(m (landmarks_to_features detection.landmarks)).1,
      (m (landmarks_to_features detection.landmarks)).2, "ml"⟩

/-! ## Unified classifier (gesture_classifier.py, lines 633-658) -/

structure GestureClassifier where
  ml_classifier : MLGestureClassifier

/-- True exactly when the load performed at construction succeeded. -/
def GestureClassifier.has_ml_model (c : GestureClassifier) : Bool :=
  c.ml_classifier.model.isSome

open Classical in
/-- Unified classification: when a model is loaded and preferred, return
the ML result if its confidence exceeds 0.6, otherwise fall back to the
rule-based classifier. -/
noncomputable def GestureClassifier.classify (c : GestureClassifier)
    (detection : HandDetection) (prefer_ml : Bool := true) : Option GestureResult :=
  if c.has_ml_model && prefer_ml then
    match c.ml_classifier.predict detection with
    | some ml_result =>
      if ml_result.confidence > 0.6 then some ml_result
      else classify_rule_based detection
    | none => classify_rule_based detection
  else classify_rule_based detection

/-! ## Temporal stabilizer (backend/processor.py, lines 323-372)

This layer only appends, filters, counts and compares timestamps, so
Python floats are modelled as rationals, keeping every definition
executable. The mutable per-client dictionary is a function from client
identifiers to buffers; a client without an entry maps to the empty
buffer, which agrees with the source both on insert (a fresh empty list
is created) and on the finality check (a missing client yields False). -/

/-- One buffered classification event, as appended by
_apply_temporal_smoothing. -/
structure BufferItem where
  gesture : String
  confidence : ℚ
  timestamp : ℚ
deriving DecidableEq

/-- Keep only the events of the last two seconds, as in the list
comprehension of processor.py line 340: strictly newer than the cutoff. -/
def pruneBuffer (buffer : List BufferItem) (cutoff_time : ℚ) : List BufferItem :=
  buffer.filter fun item => cutoff_time < item.timestamp

/-- Increment the count of a gesture in the insertion-ordered association
list, as the Python dict update gesture_counts[g] = get(g, 0) + 1 does. -/
def bumpCount : List (String × ℕ) → String → List (String × ℕ)
  | [], g => [(g, 1)]
  | (h, n) :: rest, g =>
    if h = g then (h, n + 1) :: rest else (h, n) :: bumpCount rest g

/-- Frequency count of gesture labels over the buffer, in insertion order
of first occurrence (Python dict iteration order). -/
def gestureCounts (buffer : List BufferItem) : List (String × ℕ) :=
  buffer.foldl (fun acc item => bumpCount acc item.gesture) []

/-- Python max(counts.items(), key=count): the first element of maximal
count wins, since a later element replaces the champion only when its
count is strictly greater. -/
def maxByCount : List (String × ℕ) → Option (String × ℕ)
  | [] => none
  | c :: rest => some (rest.foldl (fun best cand => if best.2 < cand.2 then cand else best) c)

/-- One step of _apply_temporal_smoothing on a single client's buffer:
append the new event, prune events older than two seconds, and substitute
the most common gesture when it was seen at least three times and differs
from the raw per-frame gesture. Returns the updated buffer and the
emitted label. -/
def apply_temporal_smoothing (buffer : List BufferItem) (gesture : String)
    (confidence current_time : ℚ) : List BufferItem × String :=
  let buffer1 := buffer ++ [⟨gesture, confidence, current_time⟩]
  let buffer2 := pruneBuffer buffer1 (current_time - 2)
  match maxByCount (gestureCounts buffer2) with
  | some most_common =>
    if 3 ≤ most_common.2 ∧ most_common.1 ≠ gesture then (buffer2, most_common.1)
    else (buffer2, gesture)
  | none => (buffer2, gesture)

/-- The per-client buffer dictionary self.client_buffers. -/
def ClientBuffers := String → List BufferItem

/-- _apply_temporal_smoothing including its effect on the buffer
dictionary. -/
def applySmoothingState (bufs : ClientBuffers) (client_id gesture : String)
    (confidence current_time : ℚ) : ClientBuffers × String :=
  let step := apply_temporal_smoothing (bufs client_id) gesture confidence current_time
  (fun s => if s = client_id then step.1 else bufs s, step.2)

/-- _is_gesture_final: the gesture is final when it occurs at least five
times among the client's buffered events of the last second. -/
def is_gesture_final (bufs : ClientBuffers) (client_id gesture : String)
    (current_time : ℚ) : Bool :=
  5 ≤ (bufs client_id).countP fun item =>
    item.gesture == gesture && decide (current_time - item.timestamp < 1)

/-- One frame of the temporal layer of _process_image_sync (processor.py,
lines 156-162): smooth the raw per-frame gesture, then judge finality of
the smoothed label against the updated buffer. The two wall-clock reads
of the source within one frame are idealized to a single instant. -/
def processFrameLabel (bufs : ClientBuffers) (client_id gesture : String)
    (confidence current_time : ℚ) : ClientBuffers × String × Bool :=
  let step := applySmoothingState bufs client_id gesture confidence current_time
  (step.1, step.2, is_gesture_final step.1 client_id step.2 current_time)

/-- Number of buffered events carrying a given label. -/
def countLabel (buffer : List BufferItem) (g : String) : ℕ :=
  buffer.countP fun item => item.gesture == g

/-- Number of buffered events carrying a given label within the last
second. -/
def countRecentLabel (buffer : List BufferItem) (g : String) (now : ℚ) : ℕ :=
  buffer.countP fun item => item.gesture == g && decide (now - item.timestamp < 1)

/-- Value associated with a gesture in a counts association list, zero
when absent. -/
def lookupCount (acc : List (String × ℕ)) (g : String) : ℕ :=
  match acc.find? (fun p => p.1 == g) with
  | some p => p.2
  | none => 0

/-! ## Concrete inputs used by witnesses and counterexamples -/

/-- A 21-landmark detection with all landmarks at the origin. -/
def zeroHand : HandDetection := ⟨List.replicate 21 ⟨0, 0, 0, 0⟩, "Right", 1⟩

/-- A detection with only 5 landmarks. -/
def shortHand : HandDetection := ⟨List.replicate 5 ⟨0, 0, 0, 0⟩, "Left", 1⟩

/-- A unified classifier whose loaded model always reports confidence
0.55, realizing the low-confidence scenario of the specification. -/
noncomputable def lowConfidenceClassifier : GestureClassifier :=
  ⟨⟨some (fun _ => ("hello", 0.55))⟩⟩

/-- Landmarks of a thumbs-up pose: thumb extended pointing left and above
the wrist, the four fingers folded (tips below their PIP joints), index
PIP bent at a right angle, thumb tip far from the index finger. -/
def lmUp : List HandLandmark :=
  [⟨0, 1, 0, 1⟩,
    ⟨-0.1, 0.9, 0, 1⟩, ⟨-0.2, 0.9, 0, 1⟩, ⟨-0.3, 0.9, 0, 1⟩, ⟨-0.4, 0.9, 0, 1⟩,
    ⟨0, 0.5, 0, 1⟩, ⟨0, 0.4, 0, 1⟩, ⟨0.1, 0.4, 0, 1⟩, ⟨0.1, 0.5, 0, 1⟩,
    ⟨0.1, 0.5, 0, 1⟩, ⟨0.1, 0.4, 0, 1⟩, ⟨0.2, 0.4, 0, 1⟩, ⟨0.2, 0.5, 0, 1⟩,
    ⟨0.3, 0.5, 0, 1⟩, ⟨0.3, 0.4, 0, 1⟩, ⟨0.4, 0.4, 0, 1⟩, ⟨0.4, 0.5, 0, 1⟩,
    ⟨0.5, 0.5, 0, 1⟩, ⟨0.5, 0.4, 0, 1⟩, ⟨0.6, 0.4, 0, 1⟩, ⟨0.6, 0.5, 0, 1⟩]

/-- The thumbs-up detection. -/
def dUp : HandDetection := ⟨lmUp, "Right", 1⟩

/-- Landmarks of an ASL letter A pose: a fist with the thumb alongside,
thumb extended, thumb tip below the wrist (larger y) and close to the
index PIP joint. Its finger-state tuple is the thumbs-down tuple. -/
def lmA : List HandLandmark :=
  [⟨0, 0.5, 0, 1⟩,
    ⟨0.05, 0.52, 0, 1⟩, ⟨0.1, 0.55, 0, 1⟩, ⟨0.28, 0.62, 0, 1⟩, ⟨0.25, 0.7, 0, 1⟩,
    ⟨0.3, 0.6, 0, 1⟩, ⟨0.3, 0.7, 0, 1⟩, ⟨0.35, 0.7, 0, 1⟩, ⟨0.35, 0.8, 0, 1⟩,
    ⟨0.4, 0.6, 0, 1⟩, ⟨0.4, 0.7, 0, 1⟩, ⟨0.45, 0.7, 0, 1⟩, ⟨0.45, 0.8, 0, 1⟩,
    ⟨0.5, 0.6, 0, 1⟩, ⟨0.5, 0.7, 0, 1⟩, ⟨0.55, 0.7, 0, 1⟩, ⟨0.55, 0.8, 0, 1⟩,
    ⟨0.6, 0.6, 0, 1⟩, ⟨0.6, 0.7, 0, 1⟩, ⟨0.65, 0.7, 0, 1⟩, ⟨0.65, 0.8, 0, 1⟩]

/-- The letter-A detection. -/
def dA : HandDetection := ⟨lmA, "Right", 1⟩

/-- A buffer holding three A events followed by three B events, all
within two seconds of the instant 7/10. -/
def c5Buffer : List BufferItem :=
  [⟨"A", 9/10, 1/10⟩, ⟨"A", 9/10, 2/10⟩, ⟨"A", 9/10, 3/10⟩,
    ⟨"B", 9/10, 4/10⟩, ⟨"B", 9/10, 5/10⟩, ⟨"B", 9/10, 6/10⟩]

/-- A buffer holding three A events and a single fresh B event. -/
def c5WitnessBuffer : List BufferItem :=
  [⟨"A", 9/10, 1/10⟩, ⟨"A", 9/10, 2/10⟩, ⟨"A", 9/10, 3/10⟩]

/-- The client-buffer state reached after feeding the label A four times
(at instants 0, 1/10, 2/10, 3/10) for one client, starting from the empty
state. -/
def c6State4 : ClientBuffers :=
  (processFrameLabel (processFrameLabel (processFrameLabel (processFrameLabel
    (fun _ => []) "client" "A" (9/10) 0).1
    "client" "A" (9/10) (1/10)).1
    "client" "A" (9/10) (2/10)).1
    "client" "A" (9/10) (3/10)).1

/-! ## Helper lemmas about the geometry -/

lemma _distance_lt (a b : HandLandmark) {c : ℝ} (hc : 0 < c)
    (h : (a.x - b.x) ^ 2 + (a.y - b.y) ^ 2 + (a.z - b.z) ^ 2 < c ^ 2) :
    _distance a b < c := by
  unfold _distance
  rw [Real.sqrt_lt' hc]
  exact h

lemma le_distance (a b : HandLandmark) {c : ℝ} (hc : 0 ≤ c)
    (h : c ^ 2 ≤ (a.x - b.x) ^ 2 + (a.y - b.y) ^ 2 + (a.z - b.z) ^ 2) :
    c ≤ _distance a b := by
  unfold _distance
  rw [Real.le_sqrt hc (by positivity)]
  exact h

lemma _distance_lt_distance (a b a' b' : HandLandmark)
    (h : (a.x - b.x) ^ 2 + (a.y - b.y) ^ 2 + (a.z - b.z) ^ 2 <
      (a'.x - b'.x) ^ 2 + (a'.y - b'.y) ^ 2 + (a'.z - b'.z) ^ 2) :
    _distance a b < _distance a' b' :=
  Real.sqrt_lt_sqrt (by positivity) h

/-- When the two segments at b are orthogonal, the regularized cosine is
exactly zero and the angle is exactly 90 degrees, even for degenerate
segments of length zero. -/
lemma _angle_of_dot_eq_zero (a b c : HandLandmark)
    (h : (a.x - b.x) * (c.x - b.x) + (a.y - b.y) * (c.y - b.y) + (a.z - b.z) * (c.z - b.z) = 0) :
    _angle a b c = 90 := by
  unfold _angle
  rw [h, zero_div]
  norm_num [Real.arccos_zero]
  field_simp
  ring

/-! ## C1: fingerspelling sub-table before common sub-table, first match wins -/

/-- C1: for every HandDetection with at least 21 landmarks, the rule-based
classifier agrees with first-match evaluation of the fingerspelling
sub-table followed by the common-gesture sub-table, both in listed order
with the unknown fallback; and whenever some fingerspelling rule matches,
its result is returned, so a detection satisfying rules of both
sub-tables resolves to the fingerspelling label. -/
theorem ruleBased_first_match_priority (d : HandDetection)
    (h : 21 ≤ d.landmarks.length) :
    classify_rule_based d =
      some ((firstMatch (fingerspellingRules ++ commonRules) d.landmarks d.handedness).getD
        unknown_result) ∧
    ∀ r, firstMatch fingerspellingRules d.landmarks d.handedness = some r →
      classify_rule_based d = some r := by
  have hlen : ¬ d.landmarks.length < 21 := not_lt.2 h
  unfold classify_rule_based
  rw [if_neg hlen, firstMatch_append, fingerspelling_eq_firstMatch]
  cases hfs : firstMatch fingerspellingRules d.landmarks d.handedness with
  | none =>
    refine ⟨?_, ?_⟩
    · simpa [Option.orElse] using common_eq_firstMatch d.landmarks d.handedness
    · intro r hr
      exact absurd hr (by simp)
  | some r =>
    exact ⟨by simp [Option.orElse], fun r' hr' => by simp_all [Option.orElse]⟩

theorem ruleBased_first_match_priority_witness :
    21 ≤ zeroHand.landmarks.length ∧
    (classify_rule_based zeroHand =
      some ((firstMatch (fingerspellingRules ++ commonRules) zeroHand.landmarks
        zeroHand.handedness).getD unknown_result) ∧
    ∀ r, firstMatch fingerspellingRules zeroHand.landmarks zeroHand.handedness = some r →
      classify_rule_based zeroHand = some r) :=
  ⟨by simp [zeroHand], ruleBased_first_match_priority zeroHand (by simp [zeroHand])⟩

/-! ## C3: detections with fewer than 21 landmarks degrade gracefully -/

/-- C3: with fewer than 21 landmarks the rule-based classifier returns no
result and the feature encoder returns the all-zero vector of length 78.
Both embedded functions are total, so no exception reaches the caller. -/
theorem short_detection_degrades (d : HandDetection) (h : d.landmarks.length < 21) :
    classify_rule_based d = none ∧
    landmarks_to_features d.landmarks = List.replicate 78 0 := by
  constructor
  · unfold classify_rule_based
    rw [if_pos h]
  · unfold landmarks_to_features
    rw [if_pos h]

theorem short_detection_degrades_witness :
    shortHand.landmarks.length < 21 ∧
    (classify_rule_based shortHand = none ∧
      landmarks_to_features shortHand.landmarks = List.replicate 78 0) :=
  ⟨by simp [shortHand], short_detection_degrades shortHand (by simp [shortHand])⟩

/-! ## C4: the unknown fallback, never None on a full hand -/

/-- C4: on a detection with at least 21 landmarks the rule-based
classifier always produces a result, and when no rule of either sub-table
matches, that result is the literal unknown fallback. -/
theorem ruleBased_unknown_fallback (d : HandDetection) (h : 21 ≤ d.landmarks.length) :
    (∃ r, classify_rule_based d = some r) ∧
    (firstMatch (fingerspellingRules ++ commonRules) d.landmarks d.handedness = none →
      classify_rule_based d = some unknown_result) := by
  have hlen : ¬ d.landmarks.length < 21 := not_lt.2 h
  unfold classify_rule_based
  rw [if_neg hlen]
  cases hfs : _classify_fingerspelling d.landmarks d.handedness with
  | none =>
    refine ⟨⟨_, common_eq_firstMatch d.landmarks d.handedness⟩, fun hall => ?_⟩
    rw [firstMatch_append, ← fingerspelling_eq_firstMatch, hfs] at hall
    simp only [Option.orElse] at hall
    show _classify_common_gestures d.landmarks d.handedness = some unknown_result
    rw [common_eq_firstMatch, hall]
    rfl
  | some r =>
    refine ⟨⟨r, rfl⟩, fun hall => ?_⟩
    rw [firstMatch_append, ← fingerspelling_eq_firstMatch, hfs] at hall
    simp [Option.orElse] at hall

theorem ruleBased_unknown_fallback_witness :
    21 ≤ zeroHand.landmarks.length ∧
    ((∃ r, classify_rule_based zeroHand = some r) ∧
      (firstMatch (fingerspellingRules ++ commonRules) zeroHand.landmarks
          zeroHand.handedness = none →
        classify_rule_based zeroHand = some unknown_result)) :=
  ⟨by simp [zeroHand], ruleBased_unknown_fallback zeroHand (by simp [zeroHand])⟩

/-! ## C8: determinism of the rule-based classifier -/

/-- C8: the rule-based classifier reads nothing but the landmark list and
the handedness of its argument; two detections agreeing on those fields
classify identically, regardless of score and of when the call happens
(the embedded function has no temporal or mutable input at all). -/
theorem ruleBased_deterministic (d d' : HandDetection)
    (h1 : d.landmarks = d'.landmarks) (h2 : d.handedness = d'.handedness) :
    classify_rule_based d = classify_rule_based d' := by
  unfold classify_rule_based
  rw [h1, h2]

theorem ruleBased_deterministic_witness :
    classify_rule_based ⟨List.replicate 21 ⟨0, 0, 0, 0⟩, "Right", 1⟩ =
      classify_rule_based ⟨List.replicate 21 ⟨0, 0, 0, 0⟩, "Right", 0.25⟩ :=
  ruleBased_deterministic _ _ rfl rfl

/-! ## C9: the joint-angle computation is total and safe -/

/-- C9: for every triple of landmarks, including degenerate coincident
triples, the regularized divisor is strictly positive, the clipped cosine
argument lies between -1 and 1, and the resulting angle lies between 0
and 180 degrees; the embedded function is total, so no domain error can
occur. -/
theorem angle_total_safe (a b c : HandLandmark) :
    0 < Real.sqrt ((a.x - b.x) ^ 2 + (a.y - b.y) ^ 2 + (a.z - b.z) ^ 2) *
        Real.sqrt ((c.x - b.x) ^ 2 + (c.y - b.y) ^ 2 + (c.z - b.z) ^ 2) + 1e-8 ∧
    -1 ≤ min 1 (max (-1)
      (((a.x - b.x) * (c.x - b.x) + (a.y - b.y) * (c.y - b.y) + (a.z - b.z) * (c.z - b.z)) /
        (Real.sqrt ((a.x - b.x) ^ 2 + (a.y - b.y) ^ 2 + (a.z - b.z) ^ 2) *
          Real.sqrt ((c.x - b.x) ^ 2 + (c.y - b.y) ^ 2 + (c.z - b.z) ^ 2) + 1e-8))) ∧
    min 1 (max (-1)
      (((a.x - b.x) * (c.x - b.x) + (a.y - b.y) * (c.y - b.y) + (a.z - b.z) * (c.z - b.z)) /
        (Real.sqrt ((a.x - b.x) ^ 2 + (a.y - b.y) ^ 2 + (a.z - b.z) ^ 2) *
          Real.sqrt ((c.x - b.x) ^ 2 + (c.y - b.y) ^ 2 + (c.z - b.z) ^ 2) + 1e-8))) ≤ 1 ∧
    0 ≤ _angle a b c ∧ _angle a b c ≤ 180 := by
  refine ⟨by positivity, ?_, min_le_left _ _, ?_, ?_⟩
  · exact le_min (by norm_num) (le_max_left _ _)
  · exact mul_nonneg (Real.arccos_nonneg _) (by positivity)
  · unfold _angle
    have harc := Real.arccos_le_pi (min 1 (max (-1)
      (((a.x - b.x) * (c.x - b.x) + (a.y - b.y) * (c.y - b.y) + (a.z - b.z) * (c.z - b.z)) /
        (Real.sqrt ((a.x - b.x) ^ 2 + (a.y - b.y) ^ 2 + (a.z - b.z) ^ 2) *
          Real.sqrt ((c.x - b.x) ^ 2 + (c.y - b.y) ^ 2 + (c.z - b.z) ^ 2) + 1e-8))))
    calc Real.arccos _ * (180 / Real.pi) ≤ Real.pi * (180 / Real.pi) :=
          mul_le_mul_of_nonneg_right harc (by positivity)
      _ = 180 := by field_simp

/-! ## C2: the unified arbitration policy -/

/-- C2: the unified classifier returns the learned result exactly when a
model is loaded, the learned path is preferred, and the learned
confidence strictly exceeds 0.6; in every other case, including a
learned confidence of at most 0.6, it returns the rule-based result, so
exactly one of the two classifiers is authoritative per call. -/
theorem unified_policy (c : GestureClassifier) (d : HandDetection) (prefer_ml : Bool) :
    (c.classify d prefer_ml =
      match c.ml_classifier.predict d, prefer_ml with
      | some ml_result, true =>
        if ml_result.confidence > 0.6 then some ml_result else classify_rule_based d
      | _, _ => classify_rule_based d) ∧
    ∀ r, c.ml_classifier.predict d = some r → r.confidence ≤ 0.6 →
      c.classify d prefer_ml = classify_rule_based d := by
  unfold GestureClassifier.classify GestureClassifier.has_ml_model
  constructor
  · cases hm : c.ml_classifier.model <;> cases prefer_ml <;>
      simp_all [MLGestureClassifier.predict]
  · intro r hr hle
    cases hm : c.ml_classifier.model <;> cases prefer_ml <;>
      simp_all [MLGestureClassifier.predict, not_lt.2 hle]

theorem unified_policy_witness :
    lowConfidenceClassifier.ml_classifier.predict zeroHand =
      some ⟨"hello", 0.55, "ml"⟩ ∧
    lowConfidenceClassifier.classify zeroHand true = classify_rule_based zeroHand :=
  ⟨rfl, (unified_policy lowConfidenceClassifier zeroHand true).2
    ⟨"hello", 0.55, "ml"⟩ rfl (by norm_num)⟩

/-! ## Lemmas about the frequency counting of the temporal stabilizer -/

lemma lookupCount_nil (g : String) : lookupCount [] g = 0 := rfl

lemma lookupCount_cons (p : String × ℕ) (rest : List (String × ℕ)) (g : String) :
    lookupCount (p :: rest) g = if p.1 = g then p.2 else lookupCount rest g := by
  by_cases h : p.1 = g <;> simp [lookupCount, List.find?_cons, h]

lemma bumpCount_lookup_self (acc : List (String × ℕ)) (g : String) :
    lookupCount (bumpCount acc g) g = lookupCount acc g + 1 := by
  induction acc with
  | nil => simp [bumpCount, lookupCount, List.find?]
  | cons p rest ih =>
    obtain ⟨h, n⟩ := p
    by_cases hg : h = g
    · subst hg
      simp [bumpCount, lookupCount_cons]
    · simp [bumpCount, hg, lookupCount_cons, ih]

lemma bumpCount_lookup_other (acc : List (String × ℕ)) (g g' : String) (hne : g' ≠ g) :
    lookupCount (bumpCount acc g) g' = lookupCount acc g' := by
  induction acc with
  | nil =>
    show lookupCount [(g, 1)] g' = lookupCount [] g'
    rw [lookupCount_cons, if_neg hne.symm]
  | cons p rest ih =>
    obtain ⟨h, n⟩ := p
    by_cases hg : h = g
    · subst hg
      have : h ≠ g' := fun e => hne e.symm
      simp [bumpCount, lookupCount_cons, this]
    · simp only [bumpCount, hg, if_false, lookupCount_cons, ih]

lemma bumpCount_keys_mem (acc : List (String × ℕ)) (g k : String) :
    k ∈ (bumpCount acc g).map Prod.fst ↔ k ∈ acc.map Prod.fst ∨ k = g := by
  induction acc with
  | nil => simp [bumpCount]
  | cons p rest ih =>
    obtain ⟨h, n⟩ := p
    by_cases hg : h = g
    · subst hg
      simp [bumpCount]
      tauto
    · simp only [bumpCount, hg, if_false, List.map_cons, List.mem_cons, ih]
      tauto

lemma bumpCount_keys_nodup (acc : List (String × ℕ)) (g : String)
    (h : (acc.map Prod.fst).Nodup) : ((bumpCount acc g).map Prod.fst).Nodup := by
  induction acc with
  | nil => simp [bumpCount]
  | cons p rest ih =>
    obtain ⟨hh, hrest⟩ := List.nodup_cons.1 h
    by_cases hg : p.1 = g
    · obtain ⟨h1, n⟩ := p
      subst hg
      simpa [bumpCount] using h
    · obtain ⟨h1, n⟩ := p
      simp only at hg
      simp only [bumpCount, hg, if_false, List.map_cons, List.nodup_cons]
      refine ⟨fun hmem => ?_, ih hrest⟩
      rcases (bumpCount_keys_mem rest g h1).1 hmem with hin | heq
      · exact hh hin
      · exact hg heq

lemma mem_lookupCount (acc : List (String × ℕ)) (p : String × ℕ)
    (hnd : (acc.map Prod.fst).Nodup) (hp : p ∈ acc) : lookupCount acc p.1 = p.2 := by
  induction acc with
  | nil => cases hp
  | cons q rest ih =>
    obtain ⟨hq, hrest⟩ := List.nodup_cons.1 hnd
    rcases List.mem_cons.1 hp with rfl | hmem
    · simp [lookupCount_cons]
    · have hne : q.1 ≠ p.1 := by
        intro e
        exact hq (e ▸ List.mem_map.2 ⟨p, hmem, rfl⟩)
      rw [lookupCount_cons, if_neg hne]
      exact ih hrest hmem

lemma lookupCount_pos_mem (acc : List (String × ℕ)) (g : String)
    (h : lookupCount acc g ≠ 0) : ∃ p ∈ acc, p.1 = g ∧ p.2 = lookupCount acc g := by
  unfold lookupCount at h ⊢
  cases hfind : acc.find? (fun p => p.1 == g) with
  | none => rw [hfind] at h; exact absurd rfl h
  | some p =>
    refine ⟨p, List.mem_of_find?_eq_some hfind, ?_, by simp [hfind]⟩
    have := List.find?_some hfind
    exact beq_iff_eq.1 this

lemma countLabel_cons (it : BufferItem) (rest : List BufferItem) (g : String) :
    countLabel (it :: rest) g =
      countLabel rest g + if it.gesture = g then 1 else 0 := by
  by_cases h : it.gesture = g <;> simp [countLabel, List.countP_cons, h]

lemma foldl_bump_lookup (l : List BufferItem) (g : String) :
    ∀ acc, lookupCount (l.foldl (fun a it => bumpCount a it.gesture) acc) g =
      lookupCount acc g + countLabel l g := by
  induction l with
  | nil => intro acc; simp [countLabel]
  | cons it rest ih =>
    intro acc
    rw [List.foldl_cons, ih, countLabel_cons]
    by_cases hg : it.gesture = g
    · subst hg
      rw [bumpCount_lookup_self]
      simp
      omega
    · rw [bumpCount_lookup_other acc it.gesture g (fun e => hg e.symm)]
      simp [hg]

lemma gestureCounts_lookup (buffer : List BufferItem) (g : String) :
    lookupCount (gestureCounts buffer) g = countLabel buffer g := by
  have := foldl_bump_lookup buffer g []
  simpa [gestureCounts, lookupCount, List.find?] using this

lemma gestureCounts_keys_nodup (buffer : List BufferItem) :
    ((gestureCounts buffer).map Prod.fst).Nodup := by
  suffices h : ∀ acc : List (String × ℕ), (acc.map Prod.fst).Nodup →
      ((buffer.foldl (fun a it => bumpCount a it.gesture) acc).map Prod.fst).Nodup by
    exact h [] (by simp)
  induction buffer with
  | nil => intro acc hacc; simpa using hacc
  | cons it rest ih =>
    intro acc hacc
    exact ih _ (bumpCount_keys_nodup acc it.gesture hacc)

lemma gestureCounts_mem_count (buffer : List BufferItem) (p : String × ℕ)
    (hp : p ∈ gestureCounts buffer) : p.2 = countLabel buffer p.1 := by
  rw [← gestureCounts_lookup]
  exact (mem_lookupCount _ p (gestureCounts_keys_nodup buffer) hp).symm

lemma countLabel_pos_mem (buffer : List BufferItem) (g : String)
    (h : 0 < countLabel buffer g) :
    (g, countLabel buffer g) ∈ gestureCounts buffer := by
  have hne : lookupCount (gestureCounts buffer) g ≠ 0 := by
    rw [gestureCounts_lookup]; omega
  obtain ⟨p, hp, h1, h2⟩ := lookupCount_pos_mem _ g hne
  rw [gestureCounts_lookup] at h2
  obtain ⟨p1, p2⟩ := p
  simp only at h1 h2
  subst h1
  subst h2
  exact hp

lemma foldl_max_spec (l : List (String × ℕ)) :
    ∀ best : String × ℕ,
      ((l.foldl (fun b c => if b.2 < c.2 then c else b) best) = best ∨
        (l.foldl (fun b c => if b.2 < c.2 then c else b) best) ∈ l) ∧
      best.2 ≤ (l.foldl (fun b c => if b.2 < c.2 then c else b) best).2 ∧
      ∀ p ∈ l, p.2 ≤ (l.foldl (fun b c => if b.2 < c.2 then c else b) best).2 := by
  induction l with
  | nil => intro best; simp
  | cons c rest ih =>
    intro best
    rw [List.foldl_cons]
    obtain ⟨hmem, hle, hall⟩ := ih (if best.2 < c.2 then c else best)
    refine ⟨?_, ?_, ?_⟩
    · rcases hmem with heq | hin
      · rw [heq]
        split_ifs with hc
        · exact Or.inr (List.mem_cons_self _ _)
        · exact Or.inl rfl
      · exact Or.inr (List.mem_cons_of_mem _ hin)
    · refine le_trans ?_ hle
      split_ifs with hc
      · exact le_of_lt hc
      · exact le_refl _
    · intro p hp
      rcases List.mem_cons.1 hp with rfl | hin
      · refine le_trans ?_ hle
        split_ifs with hc
        · exact le_refl _
        · exact le_of_not_lt hc
      · exact hall p hin

lemma maxByCount_spec (l : List (String × ℕ)) (m : String × ℕ)
    (h : maxByCount l = some m) : m ∈ l ∧ ∀ p ∈ l, p.2 ≤ m.2 := by
  cases l with
  | nil => cases h
  | cons c rest =>
    simp only [maxByCount, Option.some.injEq] at h
    obtain ⟨hmem, hle, hall⟩ := foldl_max_spec rest c
    subst h
    constructor
    · rcases hmem with heq | hin
      · rw [heq]; exact List.mem_cons_self _ _
      · exact List.mem_cons_of_mem _ hin
    · intro p hp
      rcases List.mem_cons.1 hp with rfl | hin
      · exact hle
      · exact hall p hin

lemma maxByCount_eq_none_iff (l : List (String × ℕ)) :
    maxByCount l = none ↔ l = [] := by
  cases l <;> simp [maxByCount]

/-! ## Characterizations of one smoothing step -/

lemma apply_temporal_smoothing_fst (buffer : List BufferItem) (g : String)
    (conf now : ℚ) :
    (apply_temporal_smoothing buffer g conf now).1 =
      pruneBuffer (buffer ++ [⟨g, conf, now⟩]) (now - 2) := by
  simp only [apply_temporal_smoothing]
  cases maxByCount (gestureCounts (pruneBuffer (buffer ++ [⟨g, conf, now⟩]) (now - 2))) with
  | none => rfl
  | some mc => by_cases hc : 3 ≤ mc.2 ∧ mc.1 ≠ g <;> simp [hc]

lemma apply_temporal_smoothing_snd (buffer : List BufferItem) (g : String)
    (conf now : ℚ) :
    (apply_temporal_smoothing buffer g conf now).2 =
      match maxByCount (gestureCounts (pruneBuffer (buffer ++ [⟨g, conf, now⟩]) (now - 2))) with
      | some mc => if 3 ≤ mc.2 ∧ mc.1 ≠ g then mc.1 else g
      | none => g := by
  simp only [apply_temporal_smoothing]
  cases maxByCount (gestureCounts (pruneBuffer (buffer ++ [⟨g, conf, now⟩]) (now - 2))) with
  | none => rfl
  | some mc => by_cases hc : 3 ≤ mc.2 ∧ mc.1 ≠ g <;> simp [hc]

lemma apply_temporal_smoothing_snd_none (buffer : List BufferItem) (g : String)
    (conf now : ℚ)
    (hmc : maxByCount (gestureCounts (pruneBuffer (buffer ++ [⟨g, conf, now⟩]) (now - 2))) =
      none) :
    (apply_temporal_smoothing buffer g conf now).2 = g := by
  rw [apply_temporal_smoothing_snd, hmc]

lemma apply_temporal_smoothing_snd_some (buffer : List BufferItem) (g : String)
    (conf now : ℚ) (mc : String × ℕ)
    (hmc : maxByCount (gestureCounts (pruneBuffer (buffer ++ [⟨g, conf, now⟩]) (now - 2))) =
      some mc) :
    (apply_temporal_smoothing buffer g conf now).2 =
      if 3 ≤ mc.2 ∧ mc.1 ≠ g then mc.1 else g := by
  rw [apply_temporal_smoothing_snd, hmc]

/-! ## C10: the buffer-window invariant of the temporal stabilizer -/

/-- C10: after every smoothing call, the caller's buffer holds exactly the
previously buffered events whose timestamps lie strictly within the last
two seconds followed by the newly appended event; no older event
survives, and the buffers of all other client identities are untouched.
Quantifying over an arbitrary prior state covers every sequence of
calls. -/
theorem buffer_window_invariant (bufs : ClientBuffers) (client_id gesture : String)
    (confidence current_time : ℚ) :
    (applySmoothingState bufs client_id gesture confidence current_time).1 client_id =
      pruneBuffer (bufs client_id) (current_time - 2) ++
        [⟨gesture, confidence, current_time⟩] ∧
    (∀ item ∈ (applySmoothingState bufs client_id gesture confidence current_time).1
        client_id, current_time - item.timestamp < 2) ∧
    (∀ other, other ≠ client_id →
      (applySmoothingState bufs client_id gesture confidence current_time).1 other =
        bufs other) := by
  have h1 : (applySmoothingState bufs client_id gesture confidence current_time).1
      client_id =
      (apply_temporal_smoothing (bufs client_id) gesture confidence current_time).1 := by
    simp [applySmoothingState]
  refine ⟨?_, ?_, ?_⟩
  · rw [h1, apply_temporal_smoothing_fst]
    unfold pruneBuffer
    rw [List.filter_append]
    have hkeep : current_time - 2 < current_time := by linarith
    simp [hkeep]
  · intro item hmem
    rw [h1, apply_temporal_smoothing_fst] at hmem
    unfold pruneBuffer at hmem
    have := (List.mem_filter.1 hmem).2
    have hlt : current_time - 2 < item.timestamp := by
      exact of_decide_eq_true this
    linarith
  · intro other hne
    simp [applySmoothingState, hne]

theorem buffer_window_invariant_witness :
    (applySmoothingState (fun _ => []) "client" "A" 1 0).1 "client" = [⟨"A", 1, 0⟩] := by
  have h := (buffer_window_invariant (fun _ => []) "client" "A" 1 0).1
  simpa [pruneBuffer] using h

/-! ## C5: temporal smoothing substitutes the majority label -/

section RatEvaluation

/- Batteries marks the rational-number operations irreducible; the
concrete evaluations of the temporal stabilizer below restore their
reducibility locally so that decidability instances evaluate. -/
attribute [local semireducible] Rat.add Rat.sub Rat.mul Rat.inv

/-- C5 counterexample: it is not true that any label with count at least
three that differs from the raw per-frame label is substituted. In a
buffer holding three A events and four B events (the fresh B included),
A has count three and differs from the raw label B, yet the emitted label
is the raw B, because B is the most common label. -/
theorem smoothing_some_label_claim_false :
    ¬ (∀ (buffer : List BufferItem) (gesture : String) (confidence current_time : ℚ)
        (label : String),
        3 ≤ countLabel (apply_temporal_smoothing buffer gesture confidence current_time).1
          label →
        label ≠ gesture →
        (apply_temporal_smoothing buffer gesture confidence current_time).2 = label) := by
  intro hclaim
  have h := hclaim c5Buffer "B" (9/10) (7/10) "A" (by decide) (by decide)
  have hB : (apply_temporal_smoothing c5Buffer "B" (9/10) (7/10)).2 = "B" := by decide
  rw [h] at hB
  exact absurd hB (by decide)

/-- C5 amended: one smoothing step appends the event and prunes the
buffer to the two-second window; a substituted label is always a label of
maximal count with count at least three; and a label whose count is at
least three, differs from the raw label, and strictly exceeds every other
label's count is always substituted. -/
theorem smoothing_majority_substitution (buffer : List BufferItem) (gesture : String)
    (confidence current_time : ℚ) :
    (apply_temporal_smoothing buffer gesture confidence current_time).1 =
      pruneBuffer (buffer ++ [⟨gesture, confidence, current_time⟩]) (current_time - 2) ∧
    ((apply_temporal_smoothing buffer gesture confidence current_time).2 ≠ gesture →
      3 ≤ countLabel (apply_temporal_smoothing buffer gesture confidence current_time).1
        (apply_temporal_smoothing buffer gesture confidence current_time).2 ∧
      ∀ l, countLabel (apply_temporal_smoothing buffer gesture confidence current_time).1 l ≤
        countLabel (apply_temporal_smoothing buffer gesture confidence current_time).1
          (apply_temporal_smoothing buffer gesture confidence current_time).2) ∧
    (∀ l,
      3 ≤ countLabel (apply_temporal_smoothing buffer gesture confidence current_time).1 l →
      l ≠ gesture →
      (∀ l' : String, l' ≠ l →
        countLabel (apply_temporal_smoothing buffer gesture confidence current_time).1 l' <
        countLabel (apply_temporal_smoothing buffer gesture confidence current_time).1 l) →
      (apply_temporal_smoothing buffer gesture confidence current_time).2 = l) := by
  have hfst := apply_temporal_smoothing_fst buffer gesture confidence current_time
  set buf2 := pruneBuffer (buffer ++ [⟨gesture, confidence, current_time⟩])
    (current_time - 2) with hbuf2
  refine ⟨hfst, ?_, ?_⟩
  · intro hne
    rw [hfst]
    rcases hmc : maxByCount (gestureCounts buf2) with _ | mc
    · exact absurd (apply_temporal_smoothing_snd_none buffer gesture confidence
        current_time hmc) hne
    · have hout := apply_temporal_smoothing_snd_some buffer gesture confidence
        current_time mc hmc
      by_cases hcond : 3 ≤ mc.2 ∧ mc.1 ≠ gesture
      · rw [if_pos hcond] at hout
        obtain ⟨hspec_mem, hspec_all⟩ := maxByCount_spec _ mc hmc
        have hmc_count : mc.2 = countLabel buf2 mc.1 :=
          gestureCounts_mem_count buf2 mc hspec_mem
        constructor
        · rw [hout, ← hmc_count]
          exact hcond.1
        · intro l
          rw [hout, ← hmc_count]
          by_cases hl : countLabel buf2 l = 0
          · rw [hl]
            exact Nat.zero_le _
          · exact hspec_all _ (countLabel_pos_mem buf2 l (Nat.pos_of_ne_zero hl))
      · rw [if_neg hcond] at hout
        exact absurd hout hne
  · intro l hcnt hlne hstrict
    rw [hfst] at hcnt hstrict
    have hpos : 0 < countLabel buf2 l := by omega
    have hlmem := countLabel_pos_mem buf2 l hpos
    rcases hmc : maxByCount (gestureCounts buf2) with _ | mc
    · rw [maxByCount_eq_none_iff] at hmc
      rw [hmc] at hlmem
      cases hlmem
    · obtain ⟨hspec_mem, hspec_all⟩ := maxByCount_spec _ mc hmc
      have hmc_count : mc.2 = countLabel buf2 mc.1 :=
        gestureCounts_mem_count buf2 mc hspec_mem
      have hle : countLabel buf2 l ≤ mc.2 := hspec_all _ hlmem
      have heq1 : mc.1 = l := by
        by_contra hne1
        have := hstrict mc.1 hne1
        omega
      have hout := apply_temporal_smoothing_snd_some buffer gesture confidence
        current_time mc hmc
      rw [hout, if_pos ⟨by omega, heq1 ▸ hlne⟩]
      exact heq1

theorem smoothing_majority_substitution_witness :
    (apply_temporal_smoothing c5WitnessBuffer "B" (9/10) (1/2)).2 = "A" := by
  apply (smoothing_majority_substitution c5WitnessBuffer "B" (9/10) (1/2)).2.2 "A"
    (by decide) (by decide)
  intro l' hne
  have h3 : countLabel (apply_temporal_smoothing c5WitnessBuffer "B" (9/10) (1/2)).1 "A"
      = 3 := by decide
  rw [h3]
  by_cases hB : l' = "B"
  · subst hB
    have : countLabel (apply_temporal_smoothing c5WitnessBuffer "B" (9/10) (1/2)).1 "B"
        = 1 := by decide
    omega
  · have hbuf : (apply_temporal_smoothing c5WitnessBuffer "B" (9/10) (1/2)).1 =
        [⟨"A", 9/10, 1/10⟩, ⟨"A", 9/10, 2/10⟩, ⟨"A", 9/10, 3/10⟩, ⟨"B", 9/10, 1/2⟩] := by
      decide
    rw [hbuf]
    have hA : ("A" : String) ≠ l' := fun e => hne e.symm
    have hB2 : ("B" : String) ≠ l' := fun e => hB e.symm
    simp [countLabel, List.countP_cons, hA, hB2]

/-! ## C6: finality of a gesture -/

/-- C6 counterexample: a subsequent different label does not always reset
finality. After five A frames within one second the frame is final; one
more frame with label B is smoothed back to the majority label A, which
still has five events within the last second, so the frame stays final. -/
theorem finality_reset_claim_false :
    ¬ (∀ (bufs : ClientBuffers) (client_id gesture : String)
        (confidence current_time : ℚ)
        (gest' : String) (conf' time' : ℚ),
        (processFrameLabel bufs client_id gesture confidence current_time).2.2 = true →
        gest' ≠ (processFrameLabel bufs client_id gesture confidence current_time).2.1 →
        current_time ≤ time' →
        (processFrameLabel
          (processFrameLabel bufs client_id gesture confidence current_time).1
          client_id gest' conf' time').2.2 = false) := by
  intro hclaim
  have h := hclaim c6State4 "client" "A" (9/10) (2/5) "B" (9/10) (1/2)
    (by decide) (by decide) (by decide)
  exact absurd h (by decide)

/-- C6 amended: a processed frame is marked final exactly when at least
five buffered events within the last second carry the same label as the
possibly smoothed output label; feeding the same label five times within
one second marks the frame final (concrete run included); a subsequent
different label resets finality only when the smoothed output label no
longer has five events within the last second, which an immediately
following single different frame does not achieve. -/
theorem finality_characterization :
    (∀ (bufs : ClientBuffers) (client_id gesture : String)
        (confidence current_time : ℚ),
      ((processFrameLabel bufs client_id gesture confidence current_time).2.2 = true ↔
        5 ≤ countRecentLabel
          ((processFrameLabel bufs client_id gesture confidence current_time).1 client_id)
          (processFrameLabel bufs client_id gesture confidence current_time).2.1
          current_time)) ∧
    (processFrameLabel c6State4 "client" "A" (9/10) (2/5)).2.2 = true := by
  constructor
  · intro bufs client_id gesture confidence current_time
    simp [processFrameLabel, is_gesture_final, countRecentLabel]
  · decide

end RatEvaluation

/-! ## C7: thumbs up and thumbs down -/

/-- C7 counterexample: a detection whose finger-state tuple is thumb-only
is not always classified as thumbs up or thumbs down, because the
fingerspelling sub-table is consulted first. The concrete detection dA
has the thumb-only state tuple and its thumb tip below the wrist, yet it
is classified as the letter A, not as thumbs down, since the letter-A
rule fires first. -/
theorem thumbs_state_claim_false :
    ¬ (∀ d : HandDetection, 21 ≤ d.landmarks.length →
        thumb_extended d.landmarks → ¬ index_extended d.landmarks →
        ¬ middle_extended d.landmarks → ¬ ring_extended d.landmarks →
        ¬ pinky_extended d.landmarks →
        ((nth d.landmarks THUMB_TIP).y < (nth d.landmarks WRIST).y →
          classify_rule_based d = some ⟨"thumbs_up", 0.92, "rule"⟩) ∧
        ((nth d.landmarks THUMB_TIP).y > (nth d.landmarks WRIST).y →
          classify_rule_based d = some ⟨"thumbs_down", 0.90, "rule"⟩)) := by
  intro hclaim
  have e0 : nth lmA WRIST = ⟨0, 0.5, 0, 1⟩ := rfl
  have e2 : nth lmA THUMB_MCP = ⟨0.1, 0.55, 0, 1⟩ := rfl
  have e3 : nth lmA THUMB_IP = ⟨0.28, 0.62, 0, 1⟩ := rfl
  have e4 : nth lmA THUMB_TIP = ⟨0.25, 0.7, 0, 1⟩ := rfl
  have e5 : nth lmA INDEX_MCP = ⟨0.3, 0.6, 0, 1⟩ := rfl
  have e6 : nth lmA INDEX_PIP = ⟨0.3, 0.7, 0, 1⟩ := rfl
  have e8 : nth lmA INDEX_TIP = ⟨0.35, 0.8, 0, 1⟩ := rfl
  have e10 : nth lmA MIDDLE_PIP = ⟨0.4, 0.7, 0, 1⟩ := rfl
  have e12 : nth lmA MIDDLE_TIP = ⟨0.45, 0.8, 0, 1⟩ := rfl
  have e14 : nth lmA RING_PIP = ⟨0.5, 0.7, 0, 1⟩ := rfl
  have e16 : nth lmA RING_TIP = ⟨0.55, 0.8, 0, 1⟩ := rfl
  have e18 : nth lmA PINKY_PIP = ⟨0.6, 0.7, 0, 1⟩ := rfl
  have e20 : nth lmA PINKY_TIP = ⟨0.65, 0.8, 0, 1⟩ := rfl
  have hthumbA : thumb_extended lmA := by
    unfold thumb_extended is_thumb_extended
    rw [e4, e5, e3, e0, e2]
    constructor
    · apply _distance_lt_distance
      norm_num
    · apply _distance_lt_distance
      norm_num
  have hnidxA : ¬ index_extended lmA := by
    unfold index_extended is_finger_extended
    rintro ⟨hy, -⟩
    rw [e8, e6] at hy
    norm_num at hy
  have hnmidA : ¬ middle_extended lmA := by
    unfold middle_extended is_finger_extended
    rintro ⟨hy, -⟩
    rw [e12, e10] at hy
    norm_num at hy
  have hnringA : ¬ ring_extended lmA := by
    unfold ring_extended is_finger_extended
    rintro ⟨hy, -⟩
    rw [e16, e14] at hy
    norm_num at hy
  have hnpinkyA : ¬ pinky_extended lmA := by
    unfold pinky_extended is_finger_extended
    rintro ⟨hy, -⟩
    rw [e20, e18] at hy
    norm_num at hy
  have hyA : (nth lmA THUMB_TIP).y > (nth lmA WRIST).y := by
    rw [e4, e0]
    norm_num
  have hguardA : guard_asl_a lmA := by
    refine ⟨hnidxA, hnmidA, hnringA, hnpinkyA, hthumbA, hyA, ?_⟩
    rw [e4, e6]
    apply _distance_lt
    · norm_num
    · norm_num
  have hasl : classify_rule_based dA = some ⟨"asl_a", 0.82, "rule"⟩ := by
    unfold classify_rule_based
    rw [if_neg (by decide : ¬ dA.landmarks.length < 21)]
    have hfs : _classify_fingerspelling dA.landmarks dA.handedness =
        some ⟨"asl_a", 0.82, "rule"⟩ := by
      show _classify_fingerspelling lmA "Right" = some ⟨"asl_a", 0.82, "rule"⟩
      unfold _classify_fingerspelling
      rw [if_pos hguardA]
    rw [hfs]
  have hdown := (hclaim dA (by decide) hthumbA hnidxA hnmidA hnringA hnpinkyA).2 hyA
  rw [hasl] at hdown
  have hg := congrArg (fun o => (o.getD unknown_result).gesture) hdown
  simp only [Option.getD_some] at hg
  exact absurd hg (by decide)

/-- C7 amended: on a detection with at least 21 landmarks whose
finger-state tuple is thumb-only and on which no fingerspelling rule
matches, the rule-based classifier returns thumbs up when the thumb tip
is above the wrist (smaller vertical coordinate) and thumbs down when it
is below; a matching fingerspelling rule, such as the letter-A rule,
takes priority instead. -/
theorem thumbs_updown_after_fingerspelling (d : HandDetection)
    (hlen : 21 ≤ d.landmarks.length)
    (ht : thumb_extended d.landmarks) (hi : ¬ index_extended d.landmarks)
    (hm : ¬ middle_extended d.landmarks) (hr : ¬ ring_extended d.landmarks)
    (hp : ¬ pinky_extended d.landmarks)
    (hfs : _classify_fingerspelling d.landmarks d.handedness = none) :
    ((nth d.landmarks THUMB_TIP).y < (nth d.landmarks WRIST).y →
      classify_rule_based d = some ⟨"thumbs_up", 0.92, "rule"⟩) ∧
    ((nth d.landmarks THUMB_TIP).y > (nth d.landmarks WRIST).y →
      classify_rule_based d = some ⟨"thumbs_down", 0.90, "rule"⟩) := by
  have hcr : classify_rule_based d =
      _classify_common_gestures d.landmarks d.handedness := by
    unfold classify_rule_based
    rw [if_neg (not_lt.2 hlen), hfs]
  have hfistneg : ¬ guard_fist d.landmarks := fun h => h (Or.inl ht)
  have hthumbsguard : guard_thumbs d.landmarks := ⟨ht, hi, hm, hr, hp⟩
  have hcommon : _classify_common_gestures d.landmarks d.handedness =
      some (thumbs_result d.landmarks) := by
    unfold _classify_common_gestures
    rw [if_neg hfistneg, if_pos hthumbsguard]
  constructor
  · intro hy
    rw [hcr, hcommon]
    unfold thumbs_result
    rw [if_pos hy]
  · intro hy
    rw [hcr, hcommon]
    unfold thumbs_result
    rw [if_neg (lt_asymm hy)]

theorem thumbs_updown_after_fingerspelling_witness :
    (nth lmUp THUMB_TIP).y < (nth lmUp WRIST).y ∧
    classify_rule_based dUp = some ⟨"thumbs_up", 0.92, "rule"⟩ := by
  have e0 : nth lmUp WRIST = ⟨0, 1, 0, 1⟩ := rfl
  have e2 : nth lmUp THUMB_MCP = ⟨-0.2, 0.9, 0, 1⟩ := rfl
  have e3 : nth lmUp THUMB_IP = ⟨-0.3, 0.9, 0, 1⟩ := rfl
  have e4 : nth lmUp THUMB_TIP = ⟨-0.4, 0.9, 0, 1⟩ := rfl
  have e5 : nth lmUp INDEX_MCP = ⟨0, 0.5, 0, 1⟩ := rfl
  have e6 : nth lmUp INDEX_PIP = ⟨0, 0.4, 0, 1⟩ := rfl
  have e7 : nth lmUp INDEX_DIP = ⟨0.1, 0.4, 0, 1⟩ := rfl
  have e8 : nth lmUp INDEX_TIP = ⟨0.1, 0.5, 0, 1⟩ := rfl
  have e10 : nth lmUp MIDDLE_PIP = ⟨0.1, 0.4, 0, 1⟩ := rfl
  have e12 : nth lmUp MIDDLE_TIP = ⟨0.2, 0.5, 0, 1⟩ := rfl
  have e14 : nth lmUp RING_PIP = ⟨0.3, 0.4, 0, 1⟩ := rfl
  have e16 : nth lmUp RING_TIP = ⟨0.4, 0.5, 0, 1⟩ := rfl
  have e18 : nth lmUp PINKY_PIP = ⟨0.5, 0.4, 0, 1⟩ := rfl
  have e20 : nth lmUp PINKY_TIP = ⟨0.6, 0.5, 0, 1⟩ := rfl
  have hthumb : thumb_extended lmUp := by
    unfold thumb_extended is_thumb_extended
    rw [e4, e5, e3, e0, e2]
    constructor
    · apply _distance_lt_distance
      norm_num
    · apply _distance_lt_distance
      norm_num
  have hnidx : ¬ index_extended lmUp := by
    unfold index_extended is_finger_extended
    rintro ⟨hy, -⟩
    rw [e8, e6] at hy
    norm_num at hy
  have hnmid : ¬ middle_extended lmUp := by
    unfold middle_extended is_finger_extended
    rintro ⟨hy, -⟩
    rw [e12, e10] at hy
    norm_num at hy
  have hnring : ¬ ring_extended lmUp := by
    unfold ring_extended is_finger_extended
    rintro ⟨hy, -⟩
    rw [e16, e14] at hy
    norm_num at hy
  have hnpinky : ¬ pinky_extended lmUp := by
    unfold pinky_extended is_finger_extended
    rintro ⟨hy, -⟩
    rw [e20, e18] at hy
    norm_num at hy
  have hcurl : index_curled lmUp := by
    unfold index_curled is_finger_curled
    show _angle (nth lmUp INDEX_MCP) (nth lmUp INDEX_PIP) (nth lmUp INDEX_DIP) < 100
    rw [e5, e6, e7, _angle_of_dot_eq_zero _ _ _ (by norm_num)]
    norm_num
  have hOdist : ¬ thumb_index_dist lmUp < 0.05 := by
    unfold thumb_index_dist
    rw [e4, e8]
    exact not_lt.2 (le_distance _ _ (by norm_num) (by norm_num))
  have hTdist : ¬ _distance (nth lmUp THUMB_TIP) (nth lmUp INDEX_PIP) < 0.04 := by
    rw [e4, e6]
    exact not_lt.2 (le_distance _ _ (by norm_num) (by norm_num))
  have hAy : ¬ (nth lmUp THUMB_TIP).y > (nth lmUp WRIST).y := by
    rw [e4, e0]
    norm_num
  have hA : ¬ guard_asl_a lmUp := fun h => hAy h.2.2.2.2.2.1
  have hB : ¬ guard_asl_b lmUp := fun h => h.1 hthumb
  have hC : ¬ guard_asl_c lmUp := fun h => h.2.1 hcurl
  have hD : ¬ guard_asl_d lmUp := fun h => hnidx h.1
  have hE : ¬ guard_asl_e lmUp := fun h => h.2.2.2.2.1 hthumb
  have hF : ¬ guard_asl_f lmUp := fun h => hnmid h.1
  have hG : ¬ guard_asl_g lmUp := fun h => hnidx h.2.1
  have hH : ¬ guard_asl_h lmUp := fun h => h.1 hthumb
  have hI : ¬ guard_asl_i lmUp := fun h => h.1 hthumb
  have hK : ¬ guard_asl_k lmUp := fun h => hnidx h.1
  have hL : ¬ guard_asl_l lmUp := fun h => hnidx h.2.1
  have hM : ¬ guard_asl_m lmUp := fun h => h.2.2.2.2.1 hthumb
  have hN : ¬ guard_asl_n lmUp := fun h => h.2.2.2.2.1 hthumb
  have hO : ¬ guard_asl_o lmUp := fun h => hOdist h.2.2.2.2.1
  have hR : ¬ guard_asl_r lmUp "Right" := fun h => hnidx h.1
  have hS : ¬ guard_asl_s lmUp := fun h => h.2.2.2.2.1 hthumb
  have hT : ¬ guard_asl_t lmUp := fun h => hTdist h.2.2.2.2.1
  have hU : ¬ guard_asl_u lmUp := fun h => h.1 hthumb
  have hV : ¬ guard_asl_v lmUp := fun h => h.1 hthumb
  have hW : ¬ guard_asl_w lmUp := fun h => h.1 hthumb
  have hX : ¬ guard_asl_x lmUp := fun h => h.1 hthumb
  have hY : ¬ guard_asl_y lmUp := fun h => hnpinky h.2.2.2.2
  have hfsUp : _classify_fingerspelling lmUp "Right" = none := by
    unfold _classify_fingerspelling
    rw [if_neg hA, if_neg hB, if_neg hC, if_neg hD, if_neg hE, if_neg hF, if_neg hG,
      if_neg hH, if_neg hI, if_neg hK, if_neg hL, if_neg hM, if_neg hN, if_neg hO,
      if_neg hR, if_neg hS, if_neg hT, if_neg hU, if_neg hV, if_neg hW, if_neg hX,
      if_neg hY]
  have hyUp : (nth lmUp THUMB_TIP).y < (nth lmUp WRIST).y := by
    rw [e4, e0]
    norm_num
  have h := thumbs_updown_after_fingerspelling dUp (by decide) hthumb hnidx hnmid
    hnring hnpinky hfsUp
  exact ⟨hyUp, h.1 hyUp⟩

end OmniTalk

